import Mathlib

/-!
Verification of the Mandelbrot demo repository (cruzlorite/mandelbrot).

The repository contains two GPU programs rendering a Mandelbrot image:
an OpenGL compute shader (`src/ComputeShader/mandelbrot.cpp`, GLSL source
in `shaderSource`) and an OpenCL kernel (`src/OpenCL/mandelbrot.cpp`,
kernel `mandelbrot`).  Both evaluate, per pixel, the escape-time
iteration `z ← z² + c` and map the escape depth to a palette color.

The development below is a shallow embedding of the two kernels and the
relevant host code.  Machine floating-point arithmetic is idealized as
exact rational arithmetic (`ℚ`); the logarithmic color smoothing, which
is genuinely transcendental, is embedded over `ℝ` via `Real.log`.
-/

/-- An RGBA color with 8-bit channels (stored as naturals). -/
structure RGBA where
  r : ℕ
  g : ℕ
  b : ℕ
  a : ℕ
deriving DecidableEq, Repr

/-- Opaque black, `(0,0,0,255)`.  The GLSL kernel stores
`vec4(0.0, 0.0, 0.0, 1.0)` into an `rgba8` image, which is exactly the
byte color `(0,0,0,255)`; the OpenCL kernel writes `(uchar4)(0,0,0,255)`. -/
def black : RGBA := ⟨0, 0, 0, 255⟩

/-- Opaque white, used as a concrete palette entry in counterexamples. -/
def white : RGBA := ⟨255, 255, 255, 255⟩

/-- One Mandelbrot step.  Both kernels keep `z2 = z * z` componentwise and
update `z = (z2.x - z2.y, 2 * z.x * z.y) + c`, i.e. complex `z² + c`. -/
def step (c z : ℚ × ℚ) : ℚ × ℚ :=
  (z.1 * z.1 - z.2 * z.2 + c.1, 2 * z.1 * z.2 + c.2)

/-- Squared magnitude `z2.x + z2.y` where `z2 = z * z` componentwise. -/
def normSq (z : ℚ × ℚ) : ℚ := z.1 * z.1 + z.2 * z.2

/-- The iterate sequence of both kernels: `z` starts at `c` and each loop
body replaces `z` by `step c z`. -/
def zIter (c : ℚ × ℚ) : ℕ → ℚ × ℚ
  | 0 => c
  | n + 1 => step c (zIter c n)

/-- Loop of the GLSL kernel,
`for(; depth <= maxDepth && z2.x + z2.y <= 4.0f; ++depth)`, returning the
final `depth`.  `fuel` counts the depths still satisfying
`depth <= maxDepth`, so the kernel entry point supplies
`fuel = maxDepth + 1`. -/
def glLoopAux (c : ℚ × ℚ) : ℕ → ℚ × ℚ → ℕ → ℕ
  | 0, _, depth => depth
  | fuel + 1, z, depth =>
    if normSq z ≤ 4 then glLoopAux c fuel (step c z) (depth + 1) else depth

/-- Final `depth` of the GLSL kernel's loop, as a function of the
`maxDepth` uniform (the host passes `maxDepth - 1` there). -/
def glDepth (maxDepthU : ℕ) (c : ℚ × ℚ) : ℕ :=
  glLoopAux c (maxDepthU + 1) c 0

/-- Loop of the OpenCL kernel,
`for(; depth < maxDepth && z2.x + z2.y < 4.0f; ++depth)`: both comparisons
are strict, unlike the GLSL loop. -/
def clLoopAux (c : ℚ × ℚ) : ℕ → ℚ × ℚ → ℕ → ℕ
  | 0, _, depth => depth
  | fuel + 1, z, depth =>
    if normSq z < 4 then clLoopAux c fuel (step c z) (depth + 1) else depth

/-- Final `depth` of the OpenCL kernel's loop (`maxDepth` is the host
value itself). -/
def clDepth (maxDepth : ℕ) (c : ℚ × ℚ) : ℕ :=
  clLoopAux c maxDepth c 0

/-- GLSL escaped-branch normalization `float i = float(depth) / maxDepth`
(`maxDepth` being the uniform, which the host sets to `maxDepth - 1`). -/
def glNorm (maxDepthU depth : ℕ) : ℚ := (depth : ℚ) / (maxDepthU : ℚ)

/-- OpenCL escaped-branch normalization
`float i = (float)(depth) / (float)(maxDepth - 1)`; `maxDepth` is a
`uint`, so the subtraction is truncated. -/
def clNorm (maxDepth depth : ℕ) : ℚ := (depth : ℚ) / ((maxDepth - 1 : ℕ) : ℚ)

/-- Logarithmic smoothing common to both kernels:
`ie = min(1.0f, log(i * scaleForce + 1.0f) / log(scaleForce))`. -/
noncomputable def smooth (sF i : ℚ) : ℝ :=
  min 1 (Real.log ((i : ℝ) * (sF : ℝ) + 1) / Real.log (sF : ℝ))

/-- GLSL palette index `int color = int(round((1.0f - ie) * paletteSize))`
(`paletteSize` being the uniform, which the host sets to the palette
length minus one). -/
noncomputable def glIndex (pSizeU : ℕ) (ie : ℝ) : ℤ :=
  round ((1 - ie) * (pSizeU : ℝ))

/-- OpenCL palette index
`int index = floor((1.0f - ie) * (float)(paletteSize - 1))`;
`paletteSize` is an `int` argument, so the subtraction is over ℤ. -/
noncomputable def clIndex (pSize : ℕ) (ie : ℝ) : ℤ :=
  Int.floor ((1 - ie) * ((pSize : ℝ) - 1))

/-- Palette lookup (`imageLoad(palette, color)` resp. `palette[index]`);
an out-of-range access is modelled by a default value, which no in-range
execution reaches. -/
def paletteAt (palette : List RGBA) (idx : ℤ) : RGBA :=
  palette.getD idx.toNat black

/-- Color produced by the GLSL kernel for the complex point `c`, as a
function of the kernel's uniforms: black when `depth > maxDepth`,
otherwise the palette entry at the rounded index. -/
noncomputable def glColor (maxDepthU pSizeU : ℕ) (sF : ℚ)
    (palette : List RGBA) (c : ℚ × ℚ) : RGBA :=
  if maxDepthU < glDepth maxDepthU c then black
  else paletteAt palette
    (glIndex pSizeU (smooth sF (glNorm maxDepthU (glDepth maxDepthU c))))

/-- Color produced by the OpenCL kernel for the complex point `c`: black
when `depth == maxDepth`, otherwise the palette entry at the floored
index. -/
noncomputable def clColor (maxDepth pSize : ℕ) (sF : ℚ)
    (palette : List RGBA) (c : ℚ × ℚ) : RGBA :=
  if clDepth maxDepth c = maxDepth then black
  else paletteAt palette
    (clIndex pSize (smooth sF (clNorm maxDepth (clDepth maxDepth c))))

/-- GLSL pixel-to-complex mapping `vec2 c = cdelta * pixel / size + cmin`
(componentwise), as a function of the `size` uniform. -/
def glC (size cmin cdelta : ℚ × ℚ) (p : ℕ × ℕ) : ℚ × ℚ :=
  (cdelta.1 * (p.1 : ℚ) / size.1 + cmin.1,
   cdelta.2 * (p.2 : ℚ) / size.2 + cmin.2)

/-- OpenCL pixel-to-complex mapping
`float2 c = min + delta * (float2)(x / (float)(width - 1), y / (float)(height - 1))`
where `width`/`height` come from `get_global_size` and the subtraction is
over `int`. -/
def clC (width height : ℕ) (cmin cdelta : ℚ × ℚ) (p : ℕ × ℕ) : ℚ × ℚ :=
  (cmin.1 + cdelta.1 * ((p.1 : ℚ) / ((width : ℚ) - 1)),
   cmin.2 + cdelta.2 * ((p.2 : ℚ) / ((height : ℚ) - 1)))

/-- Full per-pixel color of the ComputeShader program: the host sets the
uniforms `size = (width-1, height-1)`, `paletteSize = palette length - 1`
and `maxDepth = maxDepth - 1` before dispatch. -/
noncomputable def glPixelColor (width height maxDepth : ℕ) (sF : ℚ)
    (cmin cdelta : ℚ × ℚ) (palette : List RGBA) (p : ℕ × ℕ) : RGBA :=
  glColor (maxDepth - 1) (palette.length - 1) sF palette
    (glC ((width : ℚ) - 1, (height : ℚ) - 1) cmin cdelta p)

/-- Full per-pixel color of the OpenCL program: the host passes `maxDepth`
and the palette length unchanged as kernel arguments. -/
noncomputable def clPixelColor (width height maxDepth : ℕ) (sF : ℚ)
    (cmin cdelta : ℚ × ℚ) (palette : List RGBA) (p : ℕ × ℕ) : RGBA :=
  clColor maxDepth palette.length sF palette (clC width height cmin cdelta p)

/-- Denominators of the GLSL pixel-to-complex mapping
`cdelta * pixel / size`, after the host instantiation
`size = (width - 1, height - 1)`. -/
def glMapDenoms (width height : ℕ) : List ℚ :=
  [(width : ℚ) - 1, (height : ℚ) - 1]

/-- Denominators of the OpenCL pixel-to-complex mapping,
`(float)(width - 1)` and `(float)(height - 1)`. -/
def clMapDenoms (width height : ℕ) : List ℚ :=
  [(width : ℚ) - 1, (height : ℚ) - 1]

/-- Denominator of the GLSL escaped-branch normalization
`float(depth) / maxDepth`, after the host instantiation of the uniform
with `maxDepth - 1`. -/
def glNormDenom (maxDepth : ℕ) : ℚ := ((maxDepth - 1 : ℕ) : ℚ)

/-- Denominator of the OpenCL escaped-branch normalization
`(float)(depth) / (float)(maxDepth - 1)` (`maxDepth` is a `uint`). -/
def clNormDenom (maxDepth : ℕ) : ℚ := ((maxDepth - 1 : ℕ) : ℚ)

/-- The configuration record a host hands to its kernel dispatch. -/
structure Dispatch where
  width : ℕ
  height : ℕ
  maxDepth : ℕ
  scaleForce : ℚ
  palette : List RGBA
deriving DecidableEq

/-- Control flow of the ComputeShader host `main`: it exits early only
when GLFW initialization or GLAD loading fails, and otherwise reaches
`glDispatchCompute` unconditionally with the hardcoded parameters
`width = height = 1024 * 8`, `maxDepth = 1024`, `scaleForce = 20` and
whatever palette was decoded from `palette.png`.  No configuration
validation occurs on the path. -/
def glHostRun (glfwOk gladOk : Bool) (palette : List RGBA) : Option Dispatch :=
  if glfwOk = false then none
  else if gladOk = false then none
  else some ⟨1024 * 8, 1024 * 8, 1024, 20, palette⟩

/-- Control flow of the OpenCL host `main`: it exits early only when one
of the API status checks (platform query, device query, palette buffer
write, program build, kernel argument setup) fails, and otherwise reaches
`enqueueNDRangeKernel` unconditionally with the hardcoded parameters
`width = height = 1024`, `maxDepth = 1024`, `scaleForce = 20`.  No
configuration validation occurs on the path. -/
def clHostRun (platformOk devicesOk writeOk buildOk argsOk : Bool)
    (palette : List RGBA) : Option Dispatch :=
  if platformOk = false then none
  else if devicesOk = false then none
  else if writeOk = false then none
  else if buildOk = false then none
  else if argsOk = false then none
  else some ⟨1024, 1024, 1024, 20, palette⟩

/-- A configuration the spec's error taxonomy classifies as a
ConfigurationError: non-positive dimensions, zero max-depth,
`scaleForce ≤ 1`, or an empty palette. -/
def invalidConfig (d : Dispatch) : Prop :=
  d.width = 0 ∨ d.height = 0 ∨ d.maxDepth = 0 ∨ d.scaleForce ≤ 1 ∨ d.palette = []

instance (d : Dispatch) : Decidable (invalidConfig d) := by
  unfold invalidConfig
  infer_instance

/-- The disagreement asserted by the spec's open question: some pixel and
configuration on which the two kernels' pixel-to-complex values differ, or
some depth and `maxDepth` on which their normalized escape values differ
(host uniform conventions applied: the GLSL `size` uniform is
`(width - 1, height - 1)` and its `maxDepth` uniform is `maxDepth - 1`). -/
def mappingsDisagree : Prop :=
  (∃ (w h : ℕ) (cmin cdelta : ℚ × ℚ) (p : ℕ × ℕ),
      glC ((w : ℚ) - 1, (h : ℚ) - 1) cmin cdelta p ≠ clC w h cmin cdelta p)
  ∨ (∃ M d : ℕ, glNorm (M - 1) d ≠ clNorm M d)

/-! ### Helper lemmas about the iteration loops -/

theorem zIter_succ (c : ℚ × ℚ) (n : ℕ) : zIter c (n + 1) = step c (zIter c n) := rfl

/-- Characterization of the GLSL loop: starting at counter `depth` with the
matching iterate, the final counter moves forward by at most `fuel`, stops
either from exhausted fuel or from a squared magnitude above `4`, and every
counter value it passed had squared magnitude at most `4`. -/
theorem glLoopAux_spec (c : ℚ × ℚ) :
    ∀ fuel depth : ℕ,
      depth ≤ glLoopAux c fuel (zIter c depth) depth
      ∧ glLoopAux c fuel (zIter c depth) depth ≤ depth + fuel
      ∧ (glLoopAux c fuel (zIter c depth) depth = depth + fuel
          ∨ 4 < normSq (zIter c (glLoopAux c fuel (zIter c depth) depth)))
      ∧ ∀ e, depth ≤ e → e < glLoopAux c fuel (zIter c depth) depth →
          normSq (zIter c e) ≤ 4 := by
  intro fuel
  induction fuel with
  | zero =>
    intro depth
    refine ⟨le_rfl, by simp [glLoopAux], Or.inl (by simp [glLoopAux]), ?_⟩
    intro e he hlt
    simp only [glLoopAux] at hlt
    omega
  | succ n ih =>
    intro depth
    by_cases h : normSq (zIter c depth) ≤ 4
    · have hrw : glLoopAux c (n + 1) (zIter c depth) depth
          = glLoopAux c n (zIter c (depth + 1)) (depth + 1) := by
        simp [glLoopAux, if_pos h, zIter_succ]
      rw [hrw]
      obtain ⟨h1, h2, h3, h4⟩ := ih (depth + 1)
      refine ⟨by omega, by omega, ?_, ?_⟩
      · rcases h3 with h3 | h3
        · exact Or.inl (by omega)
        · exact Or.inr h3
      · intro e he hlt
        rcases Nat.eq_or_lt_of_le he with rfl | he2
        · exact h
        · exact h4 e he2 hlt
    · have hrw : glLoopAux c (n + 1) (zIter c depth) depth = depth := by
        simp [glLoopAux, if_neg h]
      rw [hrw]
      exact ⟨le_rfl, by omega, Or.inr (not_le.mp h), fun e he hlt => by omega⟩

/-- Characterization of the OpenCL loop, analogous to `glLoopAux_spec` but
with the strict comparison `z2.x + z2.y < 4.0f`. -/
theorem clLoopAux_spec (c : ℚ × ℚ) :
    ∀ fuel depth : ℕ,
      depth ≤ clLoopAux c fuel (zIter c depth) depth
      ∧ clLoopAux c fuel (zIter c depth) depth ≤ depth + fuel
      ∧ (clLoopAux c fuel (zIter c depth) depth = depth + fuel
          ∨ 4 ≤ normSq (zIter c (clLoopAux c fuel (zIter c depth) depth)))
      ∧ ∀ e, depth ≤ e → e < clLoopAux c fuel (zIter c depth) depth →
          normSq (zIter c e) < 4 := by
  intro fuel
  induction fuel with
  | zero =>
    intro depth
    refine ⟨le_rfl, by simp [clLoopAux], Or.inl (by simp [clLoopAux]), ?_⟩
    intro e he hlt
    simp only [clLoopAux] at hlt
    omega
  | succ n ih =>
    intro depth
    by_cases h : normSq (zIter c depth) < 4
    · have hrw : clLoopAux c (n + 1) (zIter c depth) depth
          = clLoopAux c n (zIter c (depth + 1)) (depth + 1) := by
        simp [clLoopAux, if_pos h, zIter_succ]
      rw [hrw]
      obtain ⟨h1, h2, h3, h4⟩ := ih (depth + 1)
      refine ⟨by omega, by omega, ?_, ?_⟩
      · rcases h3 with h3 | h3
        · exact Or.inl (by omega)
        · exact Or.inr h3
      · intro e he hlt
        rcases Nat.eq_or_lt_of_le he with rfl | he2
        · exact h
        · exact h4 e he2 hlt
    · have hrw : clLoopAux c (n + 1) (zIter c depth) depth = depth := by
        simp [clLoopAux, if_neg h]
      rw [hrw]
      exact ⟨le_rfl, by omega, Or.inr (not_lt.mp h), fun e he hlt => by omega⟩

/-- Once the GLSL loop exits before exhausting its fuel, extra fuel changes
nothing. -/
theorem glLoopAux_mono (c : ℚ × ℚ) :
    ∀ fuel fuel' : ℕ, ∀ z : ℚ × ℚ, ∀ depth : ℕ, fuel ≤ fuel' →
      glLoopAux c fuel z depth < depth + fuel →
      glLoopAux c fuel' z depth = glLoopAux c fuel z depth := by
  intro fuel
  induction fuel with
  | zero =>
    intro fuel' z depth _ habs
    simp only [glLoopAux] at habs
    omega
  | succ n ih =>
    intro fuel' z depth hle hlt
    obtain ⟨m, rfl⟩ : ∃ m, fuel' = m + 1 := ⟨fuel' - 1, by omega⟩
    by_cases h : normSq z ≤ 4
    · simp only [glLoopAux, if_pos h] at hlt ⊢
      exact ih m (step c z) (depth + 1) (by omega) (by omega)
    · simp only [glLoopAux, if_neg h]

/-- Once the OpenCL loop exits before exhausting its fuel, extra fuel
changes nothing. -/
theorem clLoopAux_mono (c : ℚ × ℚ) :
    ∀ fuel fuel' : ℕ, ∀ z : ℚ × ℚ, ∀ depth : ℕ, fuel ≤ fuel' →
      clLoopAux c fuel z depth < depth + fuel →
      clLoopAux c fuel' z depth = clLoopAux c fuel z depth := by
  intro fuel
  induction fuel with
  | zero =>
    intro fuel' z depth _ habs
    simp only [clLoopAux] at habs
    omega
  | succ n ih =>
    intro fuel' z depth hle hlt
    obtain ⟨m, rfl⟩ : ∃ m, fuel' = m + 1 := ⟨fuel' - 1, by omega⟩
    by_cases h : normSq z < 4
    · simp only [clLoopAux, if_pos h] at hlt ⊢
      exact ih m (step c z) (depth + 1) (by omega) (by omega)
    · simp only [clLoopAux, if_neg h]

/-- Instantiation of `glLoopAux_spec` for `glDepth`. -/
theorem glDepth_spec (mU : ℕ) (c : ℚ × ℚ) :
    glDepth mU c ≤ mU + 1
    ∧ (glDepth mU c = mU + 1 ∨ 4 < normSq (zIter c (glDepth mU c)))
    ∧ ∀ e, e < glDepth mU c → normSq (zIter c e) ≤ 4 := by
  have h := glLoopAux_spec c (mU + 1) 0
  have hz : zIter c 0 = c := rfl
  rw [hz] at h
  obtain ⟨-, h2, h3, h4⟩ := h
  exact ⟨by simpa [glDepth] using h2, by simpa [glDepth] using h3,
    fun e he => h4 e (Nat.zero_le e) (by simpa [glDepth] using he)⟩

/-- Instantiation of `clLoopAux_spec` for `clDepth`. -/
theorem clDepth_spec (M : ℕ) (c : ℚ × ℚ) :
    clDepth M c ≤ M
    ∧ (clDepth M c = M ∨ 4 ≤ normSq (zIter c (clDepth M c)))
    ∧ ∀ e, e < clDepth M c → normSq (zIter c e) < 4 := by
  have h := clLoopAux_spec c M 0
  have hz : zIter c 0 = c := rfl
  rw [hz] at h
  obtain ⟨-, h2, h3, h4⟩ := h
  exact ⟨by simpa [clDepth] using h2, by simpa [clDepth] using h3,
    fun e he => h4 e (Nat.zero_le e) (by simpa [clDepth] using he)⟩

/-- The iterate sequence at the origin is constantly the origin. -/
theorem zIter_origin (d : ℕ) : zIter (0, 0) d = (0, 0) := by
  induction d with
  | zero => rfl
  | succ n ih => rw [zIter_succ, ih]; simp [step]

/-- The logarithmic smoothing of `i = 0` is `0` for any scale force:
`log(0 * sF + 1) = log 1 = 0`. -/
theorem smooth_at_zero (sF : ℚ) : smooth sF 0 = 0 := by
  unfold smooth
  rw [Rat.cast_zero, zero_mul, zero_add, Real.log_one, zero_div]
  exact min_eq_right zero_le_one

/-- Rounding agrees with flooring on values whose fractional part is below
one half. -/
theorem round_eq_floor_of_fract_lt_half (x : ℝ) (h : Int.fract x < 1 / 2) :
    round x = Int.floor x := by
  rw [round_eq]
  have h1 : Int.fract x = x - Int.floor x := rfl
  have h2 : (Int.floor x : ℝ) ≤ x := Int.floor_le x
  have h3 : Int.floor (x + 1 / 2) < Int.floor x + 1 := by
    apply Int.floor_lt.mpr
    push_cast
    rw [h1] at h
    linarith
  have h4 : Int.floor x ≤ Int.floor (x + 1 / 2) := by
    apply Int.floor_le_floor
    linarith
  omega

/-- A point already outside the escape radius makes the GLSL loop exit at
depth 0. -/
theorem glDepth_of_escape (mU : ℕ) (c : ℚ × ℚ) (h : ¬ normSq c ≤ 4) :
    glDepth mU c = 0 := by
  unfold glDepth
  simp only [glLoopAux, if_neg h]

/-- A point already at or outside the escape radius makes the OpenCL loop
exit at depth 0. -/
theorem clDepth_of_escape (M : ℕ) (c : ℚ × ℚ) (h : ¬ normSq c < 4) :
    clDepth M c = 0 := by
  cases M with
  | zero => rfl
  | succ n =>
    unfold clDepth
    simp only [clLoopAux, if_neg h]

/-- Concrete evaluation: the GLSL loop at `c = (0,0)` with uniform
`maxDepth = 0` runs its single permitted step. -/
theorem glDepth_origin_one : glDepth 0 (0, 0) = 1 := by
  norm_num [glDepth, glLoopAux, step, normSq]

/-- Concrete evaluation: the OpenCL loop at `c = (0,0)` with
`maxDepth = 1` runs its single permitted step. -/
theorem clDepth_origin_one : clDepth 1 (0, 0) = 1 := by
  norm_num [clDepth, clLoopAux, step, normSq]

/-- Concrete evaluation: the GLSL loop escapes immediately at `c = (3,0)`. -/
theorem glDepth_three_zero : glDepth 0 (3, 0) = 0 := by
  norm_num [glDepth, glLoopAux, normSq]

/-- Concrete evaluation: the OpenCL loop escapes immediately at
`c = (3,0)`. -/
theorem clDepth_three_zero : clDepth 1 (3, 0) = 0 := by
  norm_num [clDepth, clLoopAux, normSq]

/-- The origin's iterates never have squared magnitude 4. -/
theorem origin_not_four : ∀ d, d < 1 → normSq (zIter (0, 0) d) ≠ 4 := by
  intro d hd
  rw [Nat.lt_one_iff.mp hd]
  norm_num [zIter, normSq]

/-- Multiplying by the cast of `1 - 1` gives fractional part `0`. -/
theorem fract_mul_cast_one_sub_one (x : ℝ) :
    Int.fract (x * (((1 : ℕ) : ℝ) - 1)) < 1 / 2 := by
  rw [Nat.cast_one, sub_self, mul_zero, Int.fract_zero]
  exact one_half_pos

/-! ### Claim theorems -/

/-- Claim C3 (counterexample): at `c = (2,0)`, whose squared magnitude is
exactly 4, with `maxDepth = 2`, the OpenCL loop stops at depth 0 even
though depth has not reached `maxDepth` and the squared magnitude does not
exceed 4.0 — so the OpenCL kernel does stop for another reason
(`|z|² ≥ 4`), refuting the claim that both kernels stop exactly when depth
reaches `maxDepth` or `|z|² > 4`. -/
theorem cl_loop_stops_at_four :
    clDepth 2 (2, 0) = 0
    ∧ ¬ (clDepth 2 (2, 0) = 2
          ∨ 4 < normSq (zIter (2, 0) (clDepth 2 (2, 0)))) := by
  have h : clDepth 2 (2, 0) = 0 := by norm_num [clDepth, clLoopAux, normSq]
  refine ⟨h, ?_⟩
  rw [h]
  norm_num [zIter, normSq]

/-- Claim C3 (amended): both kernels iterate `z ← z² + c` from `z = c`
with `depth` incremented once per step; writing `maxDepth` for the host
parameter (the GLSL uniform holds `maxDepth - 1`), the GLSL loop stops
exactly when `depth` reaches `maxDepth` or `|z|² > 4`, while the OpenCL
loop stops exactly when `depth` reaches `maxDepth` or `|z|² ≥ 4`; neither
stops earlier nor runs past either bound. -/
theorem loop_exit_characterization (M : ℕ) (c : ℚ × ℚ) (hM : 1 ≤ M) :
    glDepth (M - 1) c ≤ M
    ∧ (glDepth (M - 1) c = M ∨ 4 < normSq (zIter c (glDepth (M - 1) c)))
    ∧ (∀ e, e < glDepth (M - 1) c → normSq (zIter c e) ≤ 4 ∧ e < M)
    ∧ clDepth M c ≤ M
    ∧ (clDepth M c = M ∨ 4 ≤ normSq (zIter c (clDepth M c)))
    ∧ (∀ e, e < clDepth M c → normSq (zIter c e) < 4 ∧ e < M) := by
  obtain ⟨g1, g2, g3⟩ := glDepth_spec (M - 1) c
  obtain ⟨c1, c2, c3⟩ := clDepth_spec M c
  have hMU : M - 1 + 1 = M := by omega
  rw [hMU] at g1 g2
  exact ⟨g1, g2, fun e he => ⟨g3 e he, by omega⟩, c1, c2,
    fun e he => ⟨c3 e he, by omega⟩⟩

/-- Witness for the amended C3 at `maxDepth = 1`, `c = (3,0)`. -/
theorem loop_exit_characterization_witness : glDepth 0 (3, 0) ≤ 1 :=
  (loop_exit_characterization 1 (3, 0) le_rfl).1

/-- Claim C4: a pixel whose iteration loop runs all the way to `maxDepth`
(without escaping at any checked step) is classified as a Mandelbrot-set
member and colored opaque black `(0,0,0,255)` by both kernels, with no
palette lookup (the GLSL uniform `maxDepth` holds the host
`maxDepth - 1`). -/
theorem full_depth_gives_black (M pS : ℕ) (sF : ℚ) (pal : List RGBA)
    (c : ℚ × ℚ) (hM : 1 ≤ M) :
    (glDepth (M - 1) c = M → glColor (M - 1) pS sF pal c = black)
    ∧ (clDepth M c = M → clColor M pS sF pal c = black) := by
  constructor
  · intro h
    unfold glColor
    rw [h, if_pos (show M - 1 < M by omega)]
  · intro h
    unfold clColor
    rw [if_pos h]

/-- Witness for C4 at `maxDepth = 1`, `c = (0,0)`. -/
theorem full_depth_gives_black_witness :
    glColor 0 0 20 [] (0, 0) = black ∧ clColor 1 0 20 [] (0, 0) = black :=
  ⟨(full_depth_gives_black 1 0 20 [] (0, 0) le_rfl).1 glDepth_origin_one,
   (full_depth_gives_black 1 0 20 [] (0, 0) le_rfl).2 clDepth_origin_one⟩

/-- Claim C5: for any smoothed value `ie ∈ [0,1]` and any palette size
`N ≥ 1`, the palette index computed in the escaped branch of each kernel
lies in `[0, N-1]` inclusive (the GLSL `paletteSize` uniform holds
`N - 1`), so the palette access is always in range. -/
theorem palette_index_in_bounds (N : ℕ) (ie : ℝ) (hN : 1 ≤ N)
    (h0 : 0 ≤ ie) (h1 : ie ≤ 1) :
    (0 ≤ glIndex (N - 1) ie ∧ glIndex (N - 1) ie ≤ (N : ℤ) - 1)
    ∧ (0 ≤ clIndex N ie ∧ clIndex N ie ≤ (N : ℤ) - 1) := by
  have hcast : ((N - 1 : ℕ) : ℝ) = (N : ℝ) - 1 := by
    rw [Nat.cast_sub hN, Nat.cast_one]
  have hN1 : (1 : ℝ) ≤ (N : ℝ) := by exact_mod_cast hN
  have hv0 : 0 ≤ (1 - ie) * ((N - 1 : ℕ) : ℝ) :=
    mul_nonneg (by linarith) (Nat.cast_nonneg _)
  have hv1 : (1 - ie) * ((N - 1 : ℕ) : ℝ) ≤ (N : ℝ) - 1 := by
    rw [hcast]
    exact mul_le_of_le_one_left (by linarith) (by linarith)
  have hw0 : 0 ≤ (1 - ie) * ((N : ℝ) - 1) :=
    mul_nonneg (by linarith) (by linarith)
  have hw1 : (1 - ie) * ((N : ℝ) - 1) ≤ (N : ℝ) - 1 :=
    mul_le_of_le_one_left (by linarith) (by linarith)
  refine ⟨⟨?_, ?_⟩, ?_, ?_⟩
  · unfold glIndex
    rw [round_eq]
    exact Int.floor_nonneg.mpr (by linarith)
  · unfold glIndex
    rw [round_eq]
    have hlt : Int.floor ((1 - ie) * ((N - 1 : ℕ) : ℝ) + 1 / 2) < (N : ℤ) := by
      apply Int.floor_lt.mpr
      push_cast
      linarith
    omega
  · unfold clIndex
    exact Int.floor_nonneg.mpr hw0
  · unfold clIndex
    have hlt : Int.floor ((1 - ie) * ((N : ℝ) - 1)) < (N : ℤ) := by
      apply Int.floor_lt.mpr
      push_cast
      linarith
    omega

/-- Witness for C5 at `N = 1`, `ie = 0`. -/
theorem palette_index_in_bounds_witness :
    (0 ≤ glIndex 0 0 ∧ glIndex 0 0 ≤ (1 : ℤ) - 1)
    ∧ (0 ≤ clIndex 1 0 ∧ clIndex 1 0 ≤ (1 : ℤ) - 1) :=
  palette_index_in_bounds 1 0 le_rfl le_rfl zero_le_one

/-- Claim C7: with all other parameters fixed, raising `maxDepth` to any
`maxDepth' > maxDepth ≥ 1` leaves every escaped pixel escaped and leaves
its escape depth unchanged, in both kernels (GLSL classifies escaped when
`depth ≤ maxDepth` uniform, i.e. host `depth ≤ maxDepth - 1`; OpenCL when
`depth < maxDepth`). -/
theorem escape_monotonicity (M M' : ℕ) (c : ℚ × ℚ) (hM : 1 ≤ M)
    (hMM : M < M') :
    (glDepth (M - 1) c ≤ M - 1 →
      glDepth (M' - 1) c = glDepth (M - 1) c ∧ glDepth (M' - 1) c ≤ M' - 1)
    ∧ (clDepth M c < M →
      clDepth M' c = clDepth M c ∧ clDepth M' c < M') := by
  constructor
  · intro h
    have hmono := glLoopAux_mono c (M - 1 + 1) (M' - 1 + 1) c 0 (by omega)
      (by unfold glDepth at h; omega)
    unfold glDepth at h ⊢
    rw [hmono]
    exact ⟨rfl, by omega⟩
  · intro h
    have hmono := clLoopAux_mono c M M' c 0 (by omega)
      (by unfold clDepth at h; omega)
    unfold clDepth at h ⊢
    rw [hmono]
    exact ⟨rfl, by omega⟩

/-- Witness for C7 at `maxDepth = 1`, `maxDepth' = 2`, `c = (3,0)`. -/
theorem escape_monotonicity_witness :
    glDepth 1 (3, 0) = glDepth 0 (3, 0) ∧ glDepth 1 (3, 0) ≤ 1 :=
  (escape_monotonicity 1 2 (3, 0) le_rfl one_lt_two).1
    (le_of_eq glDepth_three_zero)

/-- Claim C8: the origin `c = 0` never escapes — its iterate stays at `0`,
so the squared magnitude never exceeds 4 — and for every `maxDepth ≥ 1`
both kernels run to full depth and output exactly `(0,0,0,255)`. -/
theorem origin_always_black (M pS : ℕ) (sF : ℚ) (pal : List RGBA)
    (hM : 1 ≤ M) :
    glDepth (M - 1) (0, 0) = M ∧ glColor (M - 1) pS sF pal (0, 0) = black
    ∧ clDepth M (0, 0) = M ∧ clColor M pS sF pal (0, 0) = black := by
  have hgl : glDepth (M - 1) (0, 0) = M := by
    obtain ⟨h1, h2, -⟩ := glDepth_spec (M - 1) (0, 0)
    rcases h2 with h2 | h2
    · omega
    · rw [zIter_origin] at h2
      norm_num [normSq] at h2
  have hcl : clDepth M (0, 0) = M := by
    obtain ⟨h1, h2, -⟩ := clDepth_spec M (0, 0)
    rcases h2 with h2 | h2
    · exact h2
    · rw [zIter_origin] at h2
      norm_num [normSq] at h2
  refine ⟨hgl, ?_, hcl, ?_⟩
  · unfold glColor
    rw [hgl, if_pos (show M - 1 < M by omega)]
  · unfold clColor
    rw [if_pos hcl]

/-- Witness for C8 at `maxDepth = 1`. -/
theorem origin_always_black_witness :
    glDepth 0 (0, 0) = 1 ∧ glColor 0 0 20 [] (0, 0) = black
    ∧ clDepth 1 (0, 0) = 1 ∧ clColor 1 0 20 [] (0, 0) = black :=
  origin_always_black 1 0 20 [] le_rfl

/-- Claim C2 (counterexample, proved as the negation of the claim): the
two implementations do not disagree.  With the host uniform conventions
applied (GLSL receives `size = (width-1, height-1)` and `maxDepth - 1`),
the pixel-to-complex values and the normalized escape values coincide for
every configuration, pixel and depth, so no edge shift arises from the
denominators. -/
theorem no_denominator_disagreement : ¬ mappingsDisagree := by
  unfold mappingsDisagree
  push_neg
  constructor
  · intro w h cmin cdelta p
    simp only [glC, clC, Prod.mk.injEq]
    constructor <;> ring
  · intro M d
    rfl

/-- Claim C2 (amended): the kernels' written denominators look different
(`size` vs `width - 1`, `maxDepth` vs `maxDepth - 1`), but the
ComputeShader host compensates by passing `size = (width-1, height-1)` and
`maxDepth - 1` as uniforms, so both kernels divide by `width-1`/`height-1`
in the pixel mapping and by `maxDepth-1` in the escape normalization: the
computed values agree for every pixel, configuration and depth. -/
theorem host_uniforms_align_denominators (w h M d : ℕ)
    (cmin cdelta : ℚ × ℚ) (p : ℕ × ℕ) :
    glC ((w : ℚ) - 1, (h : ℚ) - 1) cmin cdelta p = clC w h cmin cdelta p
    ∧ glNorm (M - 1) d = clNorm M d := by
  refine ⟨?_, rfl⟩
  simp only [glC, clC, Prod.mk.injEq]
  constructor <;> ring

/-- Claim C6 (counterexample): at `c = (3,0)` with `maxDepth = 2`,
`scaleForce = 20` and a 3-entry palette, both kernels compute depth 0 and
classify escaped, but the computed palette index is `2 = paletteSize - 1`
— the HIGH end of the palette-index range `[0, 2]`, not the low end `0`
asserted by the claim. -/
theorem immediate_escape_index_not_low :
    glDepth 1 (3, 0) = 0 ∧ clDepth 2 (3, 0) = 0
    ∧ glIndex 2 (smooth 20 (glNorm 1 (glDepth 1 (3, 0)))) = 2
    ∧ clIndex 3 (smooth 20 (clNorm 2 (clDepth 2 (3, 0)))) = 2
    ∧ (2 : ℤ) ≠ 0 := by
  have hgl : glDepth 1 (3, 0) = 0 := by norm_num [glDepth, glLoopAux, normSq]
  have hcl : clDepth 2 (3, 0) = 0 := by norm_num [clDepth, clLoopAux, normSq]
  have hn1 : glNorm 1 0 = 0 := by norm_num [glNorm]
  have hn2 : clNorm 2 0 = 0 := by norm_num [clNorm]
  refine ⟨hgl, hcl, ?_, ?_, by norm_num⟩
  · rw [hgl, hn1, smooth_at_zero]
    unfold glIndex
    norm_num
  · rw [hcl, hn2, smooth_at_zero]
    unfold clIndex
    norm_num

/-- Claim C6 (amended): for `c = (3,0)`, `|c|² = 9 > 4` on the first
check, so both kernels exit with depth 0 and classify the pixel as
escaped; since `ie = 0` there, the computed palette index is
`(1 - 0) * (paletteSize - 1) = paletteSize - 1`, the high end of the
palette-index range (for any `maxDepth ≥ 2`, palette size ≥ 1 and any
scale force). -/
theorem immediate_escape_high_end (M N : ℕ) (sF : ℚ) (hM : 2 ≤ M)
    (hN : 1 ≤ N) :
    glDepth (M - 1) (3, 0) = 0 ∧ ¬ (M - 1 < glDepth (M - 1) (3, 0))
    ∧ clDepth M (3, 0) = 0 ∧ clDepth M (3, 0) ≠ M
    ∧ glIndex (N - 1) (smooth sF (glNorm (M - 1) (glDepth (M - 1) (3, 0))))
        = (N : ℤ) - 1
    ∧ clIndex N (smooth sF (clNorm M (clDepth M (3, 0)))) = (N : ℤ) - 1 := by
  have h9 : ¬ normSq ((3 : ℚ), (0 : ℚ)) ≤ 4 := by norm_num [normSq]
  have hgl : glDepth (M - 1) (3, 0) = 0 := glDepth_of_escape _ _ h9
  have hcl : clDepth M (3, 0) = 0 :=
    clDepth_of_escape _ _ (by norm_num [normSq])
  have hn1 : glNorm (M - 1) 0 = 0 := by simp [glNorm]
  have hn2 : clNorm M 0 = 0 := by simp [clNorm]
  have hgi : glIndex (N - 1) 0 = (N : ℤ) - 1 := by
    unfold glIndex
    rw [sub_zero, one_mul, round_natCast]
    omega
  have hci : clIndex N 0 = (N : ℤ) - 1 := by
    unfold clIndex
    rw [sub_zero, one_mul]
    rw [show ((N : ℝ) - 1) = (((N : ℤ) - 1 : ℤ) : ℝ) by push_cast; ring]
    exact Int.floor_intCast _
  refine ⟨hgl, by omega, hcl, by omega, ?_, ?_⟩
  · rw [hgl, hn1, smooth_at_zero, hgi]
  · rw [hcl, hn2, smooth_at_zero, hci]

/-- Witness for the amended C6 at `maxDepth = 2`, palette size 3,
`scaleForce = 20`. -/
theorem immediate_escape_high_end_witness :
    glDepth 1 (3, 0) = 0 ∧ ¬ (1 < glDepth 1 (3, 0))
    ∧ clDepth 2 (3, 0) = 0 ∧ clDepth 2 (3, 0) ≠ 2
    ∧ glIndex 2 (smooth 20 (glNorm 1 (glDepth 1 (3, 0)))) = (3 : ℤ) - 1
    ∧ clIndex 3 (smooth 20 (clNorm 2 (clDepth 2 (3, 0)))) = (3 : ℤ) - 1 :=
  immediate_escape_high_end 2 3 20 le_rfl (by omega)

/-- Claim C9 (counterexample): with all environment and API calls
succeeding, both hosts dispatch the kernel with an empty palette — a
ConfigurationError per the spec's taxonomy — so invalid configurations are
not rejected before kernel work is dispatched. -/
theorem empty_palette_dispatched :
    glHostRun true true [] = some ⟨1024 * 8, 1024 * 8, 1024, 20, []⟩
    ∧ invalidConfig ⟨1024 * 8, 1024 * 8, 1024, 20, []⟩
    ∧ clHostRun true true true true true [] = some ⟨1024, 1024, 1024, 20, []⟩
    ∧ invalidConfig ⟨1024, 1024, 1024, 20, []⟩ := by
  refine ⟨rfl, ?_, rfl, ?_⟩ <;> simp [invalidConfig]

/-- Claim C9 (amended): neither program validates its configuration — as
soon as the environment and API calls succeed, the kernel is dispatched
with the hardcoded numeric parameters and whatever palette was decoded
(including an empty one); no ConfigurationError check exists before
dispatch. -/
theorem hosts_never_reject (palette : List RGBA) :
    glHostRun true true palette = some ⟨1024 * 8, 1024 * 8, 1024, 20, palette⟩
    ∧ clHostRun true true true true true palette
        = some ⟨1024, 1024, 1024, 20, palette⟩ :=
  ⟨rfl, rfl⟩

/-- Claim C10: the per-pixel kernels are not total over the spec's stated
valid domain.  With `width = 1` or `height = 1` the pixel-to-complex
mapping of both kernels divides by `width - 1 = 0` resp.
`height - 1 = 0`, and with `maxDepth = 1` the escaped-branch
normalization of both kernels divides by the effective `maxDepth - 1 = 0`
while that branch is actually reached (e.g. at `c = (3,0)`, which both
kernels classify as escaped at depth 0). -/
theorem kernel_division_by_zero (d : ℕ) (cmin cdelta : ℚ × ℚ) (p : ℕ × ℕ) :
    ((0 : ℚ) ∈ glMapDenoms 1 d ∧ (0 : ℚ) ∈ clMapDenoms 1 d
      ∧ (0 : ℚ) ∈ glMapDenoms d 1 ∧ (0 : ℚ) ∈ clMapDenoms d 1)
    ∧ (glNormDenom 1 = 0 ∧ clNormDenom 1 = 0)
    ∧ (glDepth (1 - 1) (3, 0) = 0 ∧ ¬ (1 - 1 < glDepth (1 - 1) (3, 0))
      ∧ clDepth 1 (3, 0) = 0 ∧ clDepth 1 (3, 0) ≠ 1)
    ∧ (glC ((1 : ℚ) - 1, (d : ℚ) - 1) cmin cdelta p).1
        = cdelta.1 * (p.1 : ℚ) / 0 + cmin.1
    ∧ glNorm (1 - 1) (glDepth (1 - 1) (3, 0))
        = (glDepth (1 - 1) (3, 0) : ℚ) / 0
    ∧ clNorm 1 (clDepth 1 (3, 0)) = (clDepth 1 (3, 0) : ℚ) / 0 := by
  have hgl : glDepth (1 - 1) (3, 0) = 0 :=
    glDepth_of_escape _ _ (by norm_num [normSq])
  have hcl : clDepth 1 (3, 0) = 0 :=
    clDepth_of_escape _ _ (by norm_num [normSq])
  refine ⟨?_, ?_, ⟨hgl, by omega, hcl, by omega⟩, ?_, ?_, ?_⟩
  · norm_num [glMapDenoms, clMapDenoms]
  · norm_num [glNormDenom, clNormDenom]
  · norm_num [glC]
  · norm_num [glNorm]
  · norm_num [clNorm]

/-- Claim C1 (counterexample): the two programs are not functionally
identical even with the host uniform conventions accounted for.  With
width = height = 3, `maxDepth = 2`, `scaleForce = 20`,
`cmin = (-2, -3/2)`, `cdelta = (3, 3)` and the palette `[black, white]`,
pixel `(0, 1)` maps to `c = (-2, 0)` in both kernels (squared magnitude
exactly 4), yet the ComputeShader program colors it black — its loop keeps
iterating while `|z|² ≤ 4` — while the OpenCL program escapes immediately
(`|z|² < 4` fails) and colors it white. -/
theorem gl_cl_pixel_colors_differ :
    glPixelColor 3 3 2 20 (-2, -3/2) (3, 3) [black, white] (0, 1) = black
    ∧ clPixelColor 3 3 2 20 (-2, -3/2) (3, 3) [black, white] (0, 1) = white
    ∧ black ≠ white := by
  have hc : glC (((3 : ℕ) : ℚ) - 1, ((3 : ℕ) : ℚ) - 1) (-2, -3/2) (3, 3) (0, 1)
      = (-2, 0) := by
    norm_num [glC]
  have hcc : clC 3 3 (-2, -3/2) (3, 3) (0, 1) = (-2, 0) := by
    norm_num [clC]
  have hgd : glDepth 1 (-2, 0) = 2 := by
    norm_num [glDepth, glLoopAux, step, normSq]
  have hcd : clDepth 2 (-2, 0) = 0 := by
    norm_num [clDepth, clLoopAux, normSq]
  refine ⟨?_, ?_, by decide⟩
  · show glColor 1 1 20 [black, white]
      (glC (((3 : ℕ) : ℚ) - 1, ((3 : ℕ) : ℚ) - 1) (-2, -3/2) (3, 3) (0, 1))
      = black
    rw [hc]
    unfold glColor
    rw [hgd, if_pos (by omega : (1 : ℕ) < 2)]
  · show clColor 2 2 20 [black, white] (clC 3 3 (-2, -3/2) (3, 3) (0, 1))
      = white
    rw [hcc]
    unfold clColor
    rw [hcd]
    rw [if_neg (by omega : ¬ (0 : ℕ) = 2)]
    have hn : clNorm 2 0 = 0 := by norm_num [clNorm]
    rw [hn, smooth_at_zero]
    have hi : clIndex 2 0 = 1 := by
      unfold clIndex
      norm_num
    rw [hi]
    rfl

/-- Claim C1 (amended): away from the two genuine discrepancies the
kernels agree.  If no iterate of `c` checked by the loops has squared
magnitude exactly 4 (where the GLSL `≤ 4` and OpenCL `< 4` tests differ),
both kernels exit at the same depth with the same classification; if in
addition the palette position `(1 - ie) * (paletteSize - 1)` has
fractional part below 1/2 (where GLSL `round` and OpenCL `floor` differ),
the colors are identical under the host uniform conventions. -/
theorem gl_cl_agree_away_from_boundary (M N : ℕ) (sF : ℚ)
    (pal : List RGBA) (c : ℚ × ℚ) (hM : 1 ≤ M) (hN : 1 ≤ N)
    (h4 : ∀ d, d < M → normSq (zIter c d) ≠ 4)
    (hfr : Int.fract ((1 - smooth sF (clNorm M (clDepth M c)))
        * ((N : ℝ) - 1)) < 1 / 2) :
    glColor (M - 1) (N - 1) sF pal c = clColor M N sF pal c := by
  obtain ⟨g1, g2, g3⟩ := glDepth_spec (M - 1) c
  obtain ⟨c1, c2, c3⟩ := clDepth_spec M c
  have hMU : M - 1 + 1 = M := by omega
  rw [hMU] at g1 g2
  have hdepth : glDepth (M - 1) c = clDepth M c := by
    rcases lt_trichotomy (glDepth (M - 1) c) (clDepth M c) with hlt | heq | hlt
    · have hx := c3 _ hlt
      rcases g2 with h | h
      · omega
      · exact absurd hx (by linarith)
    · exact heq
    · have hx := g3 _ hlt
      rcases c2 with h | h
      · omega
      · exact absurd (le_antisymm hx h) (h4 _ (by omega))
  by_cases hb : clDepth M c = M
  · unfold glColor clColor
    rw [if_pos (show M - 1 < glDepth (M - 1) c by omega), if_pos hb]
  · unfold glColor clColor
    rw [if_neg (show ¬ M - 1 < glDepth (M - 1) c by omega), if_neg hb]
    have hie : glNorm (M - 1) (glDepth (M - 1) c)
        = clNorm M (clDepth M c) := by
      rw [hdepth]
      rfl
    rw [hie]
    congr 1
    unfold glIndex clIndex
    rw [Nat.cast_sub hN, Nat.cast_one]
    exact round_eq_floor_of_fract_lt_half _ hfr

/-- Witness for the amended C1 at `maxDepth = 1`, palette `[black]`,
`c = (0,0)`. -/
theorem gl_cl_agree_away_from_boundary_witness :
    glColor 0 0 20 [black] (0, 0) = clColor 1 1 20 [black] (0, 0) :=
  gl_cl_agree_away_from_boundary 1 1 20 [black] (0, 0) le_rfl le_rfl
    origin_not_four (fract_mul_cast_one_sub_one _)
